import Mathlib

/-!
Shallow embedding of `TestONNXQuick.py` (SafetyVisionMonitor repository).

The script validates ONNX model files: `check_onnx_model` checks file
existence, loads the model (`onnx.load`), runs the structural checker
(`onnx.checker.check_model`), prints graph input/output tensor shapes,
then creates an `onnxruntime` inference session and evaluates a
YoloDotNet compatibility expression.  `main` runs it over a hardcoded
list of five model file names and reports counts.

External library calls are modelled as oracles in an `Env` record;
fallible calls return `Except PyErr _`.  Python's try/except blocks are
transcribed as matches on those `Except` results.  The embedding also
records, in the result, a trace of which library calls were attempted,
the rendered shape reports (the printed metadata), the compatibility
verdict (printed on line 61 of the source) and any caught exception
(the printed diagnostic).
-/

namespace TestONNXQuick

/-- Python exceptions that the script's calls can raise. -/
inductive PyErr where
  | typeError
  | indexError
  | loadError (msg : String)
  | checkError (msg : String)
  | sessionError (msg : String)
  deriving DecidableEq, Repr

/-- A dimension of an `onnxruntime` session tensor shape: either an
integer or a symbolic (dynamic) dimension, which Python represents as a
string. -/
inductive Dim where
  | intDim (n : Int)
  | symDim (s : String)
  deriving DecidableEq, Repr

/-- A graph input/output tensor of a loaded ONNX model: its name and the
`dim_value` of each dimension (protobuf int64, 0 for dynamic dims). -/
structure GraphTensor where
  name : String
  dims : List Int
  deriving DecidableEq, Repr

/-- A loaded ONNX model (`onnx.load` result), with the fields the script
reads. -/
structure OnnxModel where
  producer_name : String
  model_version : Int
  inputs : List GraphTensor
  outputs : List GraphTensor
  deriving DecidableEq, Repr

/-- An `onnxruntime` session tensor (`session.get_inputs()` element). -/
structure TensorInfo where
  name : String
  shape : List Dim
  deriving DecidableEq, Repr

/-- An `onnxruntime` inference session, with the parts the script reads. -/
structure Session where
  inputs : List TensorInfo
  outputs : List TensorInfo
  deriving DecidableEq, Repr

/-- The external world: filesystem and the two ONNX libraries. -/
structure Env where
  path_exists : String → Bool
  getsize : String → Nat
  load : String → Except PyErr OnnxModel
  check_model : OnnxModel → Except PyErr Unit
  create_session : String → Except PyErr Session

/-- Library calls attempted by `check_onnx_model`, in source order:
`onnx.load` (line 27), `onnx.checker.check_model` (line 28), shape
introspection (lines 32-44), `ort.InferenceSession` (line 49). -/
inductive Event where
  | loadModel
  | checkModel
  | introspect
  | createSession
  deriving DecidableEq, Repr

/-- A rendered shape entry, as printed on lines 38/43 of the source:
`dim.dim_value if dim.dim_value > 0 else 'dynamic'`. -/
inductive ShapeEntry where
  | num (n : Int)
  | dynamic
  deriving DecidableEq, Repr

/-- Line 38/43: render one dimension of a graph tensor shape. -/
def renderDim (dim_value : Int) : ShapeEntry :=
  if dim_value > 0 then ShapeEntry.num dim_value else ShapeEntry.dynamic

/-- Render a whole graph tensor shape (the list comprehension on
lines 38/43). -/
def renderShape (dims : List Int) : List ShapeEntry :=
  dims.map renderDim

/-- Python's `all(dim > 0 for dim in shape)` on line 60: lazily compares
each dimension with 0.  Comparing a string (symbolic dimension) with an
int raises `TypeError`; a non-positive int makes `all` return `False`
without evaluating later comparisons. -/
def pyAllPos : List Dim → Except PyErr Bool
  | [] => Except.ok true
  | Dim.intDim n :: rest => if 0 < n then pyAllPos rest else Except.ok false
  | Dim.symDim _ :: _ => Except.error PyErr.typeError

/-- Lines 58-60: the `is_compatible` expression.  Python `and`
short-circuits, so the `all(...)` comparison (which can raise) is only
evaluated when the name and rank conjuncts hold. -/
def pyIsCompatible (info : TensorInfo) : Except PyErr Bool :=
  if info.name == "images" then
    if info.shape.length == 4 then pyAllPos info.shape
    else Except.ok false
  else Except.ok false

/-- Lines 49-63, the body of the inner `try`: create the session, index
the first input and output (raising `IndexError` when absent), and
evaluate the compatibility expression (which can raise `TypeError`).
Returns the two tensors and the verdict. -/
def innerBlock (env : Env) (path : String) :
    Except PyErr (TensorInfo × TensorInfo × Bool) :=
  match env.create_session path with
  | Except.error e => Except.error e
  | Except.ok session =>
    match session.inputs with
    | [] => Except.error PyErr.indexError
    | input_info :: _ =>
      match session.outputs with
      | [] => Except.error PyErr.indexError
      | output_info :: _ =>
        match pyIsCompatible input_info with
        | Except.error e => Except.error e
        | Except.ok b => Except.ok (input_info, output_info, b)

/-- Lines 48-67: the inner try/except.  On success the function returns
`True` (line 63) whatever the verdict was; the handler (lines 65-67)
prints the runtime error and returns `False`.  Result: (printed verdict,
printed runtime error, return value). -/
def sessionTest (env : Env) (path : String) :
    Option Bool × Option PyErr × Bool :=
  match innerBlock env path with
  | Except.ok (_, _, b) => (some b, none, true)
  | Except.error e => (none, some e, false)

/-- What the outer try block produces when it does not raise. -/
structure CheckSuccess where
  inputReport : List (String × List ShapeEntry)
  outputReport : List (String × List ShapeEntry)
  compatVerdict : Option Bool
  rtErr : Option PyErr
  result : Bool
  deriving DecidableEq, Repr

/-- Lines 24-67, the body of the outer `try`, paired with the trace of
library calls attempted: `onnx.load` (line 27) and
`onnx.checker.check_model` (line 28) propagate their exceptions;
introspection (lines 32-44) is pure; the session test (lines 48-67)
handles its own exceptions. -/
def outerBlock (env : Env) (path : String) :
    List Event × Except PyErr CheckSuccess :=
  match env.load path with
  | Except.error e => ([Event.loadModel], Except.error e)
  | Except.ok model =>
    match env.check_model model with
    | Except.error e => ([Event.loadModel, Event.checkModel], Except.error e)
    | Except.ok _ =>
      let inputReport := model.inputs.map (fun t => (t.name, renderShape t.dims))
      let outputReport := model.outputs.map (fun t => (t.name, renderShape t.dims))
      let r := sessionTest env path
      ([Event.loadModel, Event.checkModel, Event.introspect, Event.createSession],
       Except.ok
         { inputReport := inputReport
           outputReport := outputReport
           compatVerdict := r.1
           rtErr := r.2.1
           result := r.2.2 })

/-- The observable outcome of one `check_onnx_model` call: attempted
library calls, printed shape reports, printed compatibility verdict,
printed caught-exception diagnostic, and the return value. -/
structure CheckResult where
  trace : List Event
  inputReport : List (String × List ShapeEntry)
  outputReport : List (String × List ShapeEntry)
  compatVerdict : Option Bool
  errMsg : Option PyErr
  result : Bool
  deriving DecidableEq, Repr

/-- Lines 12-71: `check_onnx_model`.  Missing file: print and return
`False` before any library call (lines 16-18).  Otherwise run the outer
try block; its handler (lines 69-71) prints the exception and returns
`False`. -/
def check_onnx_model (env : Env) (path : String) : CheckResult :=
  if env.path_exists path then
    match outerBlock env path with
    | (tr, Except.ok s) =>
      { trace := tr
        inputReport := s.inputReport
        outputReport := s.outputReport
        compatVerdict := s.compatVerdict
        errMsg := s.rtErr
        result := s.result }
    | (tr, Except.error e) =>
      { trace := tr
        inputReport := []
        outputReport := []
        compatVerdict := none
        errMsg := some e
        result := false }
  else
    { trace := []
      inputReport := []
      outputReport := []
      compatVerdict := none
      errMsg := none
      result := false }

/-- Line 77: the hardcoded models directory. -/
def models_dir : String :=
  "/mnt/d/000.Source/SafetyVisionMonitor/SafetyVisionMonitor/bin/Debug/net8.0-windows/Models"

/-- Lines 83-89: the hardcoded list of model file names, in order
(including the `olov8s-cls.onnx` typo kept by the source). -/
def model_files : List String :=
  ["yolov8s.onnx", "yolov8s-pose.onnx", "yolov8s-seg.onnx",
   "olov8s-cls.onnx", "yolov8s-obb.onnx"]

/-- `os.path.join(models_dir, model_file)` on line 95 (the directory has
no trailing separator and the file name is relative). -/
def path_join (dir file : String) : String := dir ++ "/" ++ file

/-- One iteration of the loop on lines 94-99: increment `total_models`,
and `valid_models` exactly when `check_onnx_model` returned `True`.
Accumulator: (valid_models, total_models). -/
def loopStep (env : Env) (acc : Nat × Nat) (file : String) : Nat × Nat :=
  (if (check_onnx_model env (path_join models_dir file)).result
   then acc.1 + 1 else acc.1,
   acc.2 + 1)

/-- The whole validation loop starting from `valid_models = 0`,
`total_models = 0` (lines 91-99). -/
def runLoop (env : Env) (files : List String) : Nat × Nat :=
  files.foldl (loopStep env) (0, 0)

/-- The observable outcome of `main` when the models directory exists. -/
structure MainResult where
  total_models : Nat
  valid_models : Nat
  warning : Bool
  deriving DecidableEq, Repr

/-- Lines 73-109: `main`.  Returns `none` when the models directory does
not exist (early return, lines 79-81); otherwise runs the loop over
`model_files` and prints the warning block iff
`valid_models < total_models` (line 104). -/
def main_run (env : Env) : Option MainResult :=
  if env.path_exists models_dir then
    let r := runLoop env model_files
    some { total_models := r.2, valid_models := r.1, warning := r.1 < r.2 }
  else none

/-! Concrete environments used to instantiate the theorems. -/

/-- A fully YoloDotNet-compatible session input. -/
def okInput : TensorInfo :=
  { name := "images"
    shape := [Dim.intDim 1, Dim.intDim 3, Dim.intDim 640, Dim.intDim 640] }

/-- A session whose first input is fully compatible. -/
def okSession : Session :=
  { inputs := [okInput]
    outputs := [{ name := "output0"
                  shape := [Dim.intDim 1, Dim.intDim 84, Dim.intDim 8400] }] }

/-- A well-formed loaded model. -/
def okModel : OnnxModel :=
  { producer_name := "pytorch"
    model_version := 0
    inputs := [{ name := "images", dims := [1, 3, 640, 640] }]
    outputs := [{ name := "output0", dims := [1, 84, 8400] }] }

/-- A world where every file exists and every library call succeeds with
a compatible model. -/
def envOk : Env :=
  { path_exists := fun _ => true
    getsize := fun _ => 21470000
    load := fun _ => Except.ok okModel
    check_model := fun _ => Except.ok ()
    create_session := fun _ => Except.ok okSession }

/-- A session that loads fine but whose first input name is not
`images`, so the compatibility verdict is false. -/
def incompatSession : Session :=
  { inputs := [{ name := "input0"
                 shape := [Dim.intDim 1, Dim.intDim 3, Dim.intDim 640, Dim.intDim 640] }]
    outputs := [{ name := "output0"
                  shape := [Dim.intDim 1, Dim.intDim 84, Dim.intDim 8400] }] }

/-- Like `envOk` but the session is incompatible. -/
def envIncompat : Env :=
  { envOk with create_session := fun _ => Except.ok incompatSession }

/-- A session whose first input is named `images` with rank 4 but with
symbolic (dynamic) dimensions in its shape. -/
def dynSession : Session :=
  { inputs := [{ name := "images"
                 shape := [Dim.intDim 1, Dim.intDim 3,
                           Dim.symDim "height", Dim.symDim "width"] }]
    outputs := [{ name := "output0"
                  shape := [Dim.intDim 1, Dim.intDim 84, Dim.symDim "anchors"] }] }

/-- Like `envOk` but the session has dynamic input dimensions. -/
def envDyn : Env :=
  { envOk with create_session := fun _ => Except.ok dynSession }

/-- A world where files exist but every library call raises. -/
def envFail : Env :=
  { path_exists := fun _ => true
    getsize := fun _ => 12
    load := fun _ => Except.error (PyErr.loadError "protobuf parse failed")
    check_model := fun _ => Except.error (PyErr.checkError "invalid graph")
    create_session := fun _ => Except.error (PyErr.sessionError "unsupported opset") }

/-- A world where no file exists. -/
def envMissing : Env :=
  { envOk with path_exists := fun _ => false }

/-! Helper lemmas about the compatibility expression. -/

/-- A session shape dimension counts as strictly positive when it is an
integer dimension greater than 0; a symbolic dimension does not. -/
def dimPos : Dim → Bool
  | Dim.intDim n => decide (0 < n)
  | Dim.symDim _ => false

/-- When Python's `all(dim > 0 ...)` returns a boolean (rather than
raising), that boolean is true exactly when every dimension is a strictly
positive integer. -/
lemma pyAllPos_ok (l : List Dim) (b : Bool) (h : pyAllPos l = Except.ok b) :
    b = true ↔ ∀ d ∈ l, dimPos d = true := by
  induction l generalizing b with
  | nil =>
    rw [pyAllPos] at h
    cases h
    simp
  | cons d rest ih =>
    cases d with
    | intDim n =>
      by_cases hn : 0 < n
      · rw [pyAllPos, if_pos hn] at h
        rw [ih b h]
        simp [dimPos, hn]
      · rw [pyAllPos, if_neg hn] at h
        cases h
        simp [dimPos, hn]
    | symDim s =>
      rw [pyAllPos] at h
      cases h

/-- When the `is_compatible` expression evaluates to a boolean (rather
than raising), that boolean is true exactly when the input is named
`images`, has rank 4, and every dimension is strictly positive. -/
lemma pyIsCompatible_ok (i : TensorInfo) (b : Bool)
    (h : pyIsCompatible i = Except.ok b) :
    b = true ↔
      (i.name = "images" ∧ i.shape.length = 4 ∧ ∀ d ∈ i.shape, dimPos d = true) := by
  unfold pyIsCompatible at h
  by_cases hn : i.name = "images"
  · rw [if_pos (by simp [hn])] at h
    by_cases hl : i.shape.length = 4
    · rw [if_pos (by simp [hl])] at h
      rw [pyAllPos_ok _ _ h]
      simp [hn, hl]
    · rw [if_neg (by simp [hl])] at h
      cases h
      simp [hl]
  · rw [if_neg (by simp [hn])] at h
    cases h
    simp [hn]

/-- When the inner try block succeeds, the session was created, the two
tensors are the heads of its input/output lists, and the verdict came
from the compatibility expression. -/
lemma innerBlock_ok (env : Env) (path : String) (i o : TensorInfo) (b : Bool)
    (h : innerBlock env path = Except.ok (i, o, b)) :
    ∃ s ri ro, env.create_session path = Except.ok s
      ∧ s.inputs = i :: ri ∧ s.outputs = o :: ro
      ∧ pyIsCompatible i = Except.ok b := by
  unfold innerBlock at h
  split at h
  · simp at h
  next s hs =>
    split at h
    · simp at h
    next i0 ri hi =>
      split at h
      · simp at h
      next o0 ro ho =>
        split at h
        · simp at h
        next b0 hc =>
          rw [Except.ok.injEq, Prod.mk.injEq, Prod.mk.injEq] at h
          obtain ⟨h1, h2, h3⟩ := h
          subst h1
          subst h2
          subst h3
          exact ⟨s, ri, ro, hs, hi, ho, hc⟩

/-- When `check_onnx_model` prints a compatibility verdict, the inner
try block succeeded with that verdict. -/
lemma compatVerdict_some (env : Env) (path : String) (b : Bool)
    (h : (check_onnx_model env path).compatVerdict = some b) :
    ∃ i o, innerBlock env path = Except.ok (i, o, b) := by
  by_cases hp : env.path_exists path
  · cases hl : env.load path with
    | error e =>
      simp [check_onnx_model, outerBlock, hp, hl] at h
    | ok model =>
      cases hc : env.check_model model with
      | error e =>
        simp [check_onnx_model, outerBlock, hp, hl, hc] at h
      | ok u =>
        cases hi : innerBlock env path with
        | error e =>
          simp [check_onnx_model, outerBlock, sessionTest, hp, hl, hc, hi] at h
        | ok t =>
          obtain ⟨i0, o0, b0⟩ := t
          simp [check_onnx_model, outerBlock, sessionTest, hp, hl, hc, hi] at h
          subst h
          exact ⟨i0, o0, rfl⟩
  · simp [check_onnx_model, hp] at h

/-! Claim theorems. -/

/-- C1: in `check_onnx_model`, whenever the YoloDotNet compatibility
verdict is printed (lines 58-61), it is true if and only if the first
session input's name equals `images`, its shape has exactly 4
dimensions, and every dimension in that shape is strictly positive;
otherwise the verdict is false. -/
theorem claim_C1 (env : Env) (path : String) (s : Session)
    (i : TensorInfo) (ri : List TensorInfo) (b : Bool)
    (hs : env.create_session path = Except.ok s)
    (hi : s.inputs = i :: ri)
    (hb : (check_onnx_model env path).compatVerdict = some b) :
    b = true ↔
      (i.name = "images" ∧ i.shape.length = 4 ∧ ∀ d ∈ i.shape, dimPos d = true) := by
  obtain ⟨i0, o0, h0⟩ := compatVerdict_some env path b hb
  obtain ⟨s0, ri0, ro0, hs0, hi0, ho0, hc0⟩ := innerBlock_ok env path i0 o0 b h0
  rw [hs0, Except.ok.injEq] at hs
  subst hs
  rw [hi0, List.cons.injEq] at hi
  obtain ⟨hii, hri⟩ := hi
  subst hii
  exact pyIsCompatible_ok i0 b hc0

/-- Witness for C1: in the all-successful world `envOk`, the verdict is
`true` and the first session input indeed has name `images`, rank 4 and
all-positive dimensions. -/
theorem claim_C1_witness :
    true = true ↔
      (okInput.name = "images" ∧ okInput.shape.length = 4
        ∧ ∀ d ∈ okInput.shape, dimPos d = true) :=
  claim_C1 envOk "m.onnx" okSession okInput [] true rfl rfl rfl

/-- Counterexample to C2 as stated: under `envIncompat` the session is
created successfully but the compatibility verdict is false (the input
is not named `images`), yet `check_onnx_model` still returns `True`
(line 63 of the source runs regardless of the verdict). -/
theorem claim_C2_counterexample :
    (check_onnx_model envIncompat "m.onnx").compatVerdict = some false
      ∧ (check_onnx_model envIncompat "m.onnx").result = true := by
  constructor <;> rfl

/-- C2 (amended): `check_onnx_model` returns `True` if and only if the
file exists, loading and the structural check succeed, and the inner
session block (session creation, first input/output retrieval, and
evaluation of the compatibility expression) completes without raising;
the value of the compatibility verdict itself does not affect the
return value. -/
theorem claim_C2 (env : Env) (path : String) :
    (check_onnx_model env path).result = true ↔
      (env.path_exists path = true
        ∧ (∃ m, env.load path = Except.ok m ∧ env.check_model m = Except.ok ())
        ∧ ∃ t, innerBlock env path = Except.ok t) := by
  by_cases hp : env.path_exists path
  · cases hl : env.load path with
    | error e =>
      simp [check_onnx_model, outerBlock, hp, hl]
    | ok model =>
      cases hc : env.check_model model with
      | error e =>
        simp [check_onnx_model, outerBlock, hp, hl, hc]
      | ok u =>
        cases hi : innerBlock env path with
        | error e =>
          simp [check_onnx_model, outerBlock, sessionTest, hp, hl, hc, hi]
        | ok t =>
          simp [check_onnx_model, outerBlock, sessionTest, hp, hl, hc, hi]
  · simp [check_onnx_model, hp]

/-- C3: for every existing input path, no exception escapes
`check_onnx_model`: an exception propagating out of the outer try block
(model loading or structural validation) is caught, its diagnostic is
printed, and the function returns `False`; an exception in the inner
session block (session creation, tensor indexing, or the compatibility
check) likewise makes the function return `False`.  The embedding's
total return type `CheckResult` records that nothing propagates to the
caller. -/
theorem claim_C3 (env : Env) (path : String)
    (hp : env.path_exists path = true) :
    (∀ e, (outerBlock env path).2 = Except.error e →
        (check_onnx_model env path).result = false
          ∧ (check_onnx_model env path).errMsg = some e)
    ∧ ∀ e, innerBlock env path = Except.error e →
        (check_onnx_model env path).result = false := by
  constructor
  · intro e he
    cases hl : env.load path with
    | error e0 =>
      have he0 : e0 = e := by
        simp only [outerBlock, hl] at he
        exact Except.error.inj he
      subst he0
      simp [check_onnx_model, outerBlock, hp, hl]
    | ok model =>
      cases hc : env.check_model model with
      | error e0 =>
        have he0 : e0 = e := by
          simp only [outerBlock, hl, hc] at he
          exact Except.error.inj he
        subst he0
        simp [check_onnx_model, outerBlock, hp, hl, hc]
      | ok u =>
        simp [outerBlock, hl, hc] at he
  · intro e he
    cases hl : env.load path with
    | error e0 =>
      simp [check_onnx_model, outerBlock, hp, hl]
    | ok model =>
      cases hc : env.check_model model with
      | error e0 =>
        simp [check_onnx_model, outerBlock, hp, hl, hc]
      | ok u =>
        simp [check_onnx_model, outerBlock, sessionTest, hp, hl, hc, he]

/-- Witness for C3: under `envFail` the load raises and the session
creation raises, and `check_onnx_model` returns `False` with the load
diagnostic. -/
theorem claim_C3_witness :
    ((check_onnx_model envFail "m.onnx").result = false
      ∧ (check_onnx_model envFail "m.onnx").errMsg =
          some (PyErr.loadError "protobuf parse failed"))
    ∧ (check_onnx_model envFail "m.onnx").result = false :=
  ⟨(claim_C3 envFail "m.onnx" rfl).1 (PyErr.loadError "protobuf parse failed") rfl,
   (claim_C3 envFail "m.onnx" rfl).2 (PyErr.sessionError "unsupported opset") rfl⟩

/-- C4: for every existing model file, the library calls are attempted
in the fixed order load, structural check, introspection, session
creation (the trace is a prefix of that sequence), and a later step is
attempted exactly when every earlier step completed without raising. -/
theorem claim_C4 (env : Env) (path : String)
    (hp : env.path_exists path = true) :
    (∃ t, (check_onnx_model env path).trace ++ t =
        [Event.loadModel, Event.checkModel, Event.introspect, Event.createSession])
    ∧ Event.loadModel ∈ (check_onnx_model env path).trace
    ∧ (Event.checkModel ∈ (check_onnx_model env path).trace ↔
        ∃ m, env.load path = Except.ok m)
    ∧ (Event.introspect ∈ (check_onnx_model env path).trace ↔
        ∃ m, env.load path = Except.ok m ∧ env.check_model m = Except.ok ())
    ∧ (Event.createSession ∈ (check_onnx_model env path).trace ↔
        ∃ m, env.load path = Except.ok m ∧ env.check_model m = Except.ok ()) := by
  cases hl : env.load path with
  | error e =>
    refine ⟨⟨[Event.checkModel, Event.introspect, Event.createSession], ?_⟩,
      ?_, ?_, ?_, ?_⟩ <;>
      simp [check_onnx_model, outerBlock, hp, hl]
  | ok model =>
    cases hc : env.check_model model with
    | error e =>
      refine ⟨⟨[Event.introspect, Event.createSession], ?_⟩, ?_, ?_, ?_, ?_⟩ <;>
        simp [check_onnx_model, outerBlock, hp, hl, hc]
    | ok u =>
      refine ⟨⟨[], ?_⟩, ?_, ?_, ?_, ?_⟩ <;>
        simp [check_onnx_model, outerBlock, hp, hl, hc]

/-- Witness for C4: the all-successful world attempts all four steps. -/
theorem claim_C4_witness :
    (∃ t, (check_onnx_model envOk "m.onnx").trace ++ t =
        [Event.loadModel, Event.checkModel, Event.introspect, Event.createSession])
    ∧ Event.loadModel ∈ (check_onnx_model envOk "m.onnx").trace
    ∧ (Event.checkModel ∈ (check_onnx_model envOk "m.onnx").trace ↔
        ∃ m, envOk.load "m.onnx" = Except.ok m)
    ∧ (Event.introspect ∈ (check_onnx_model envOk "m.onnx").trace ↔
        ∃ m, envOk.load "m.onnx" = Except.ok m ∧ envOk.check_model m = Except.ok ())
    ∧ (Event.createSession ∈ (check_onnx_model envOk "m.onnx").trace ↔
        ∃ m, envOk.load "m.onnx" = Except.ok m ∧ envOk.check_model m = Except.ok ()) :=
  claim_C4 envOk "m.onnx" rfl

/-- C6: when the shape reports are produced (load and structural check
succeeded), every graph input and output tensor is reported with its
dimensions rendered by `renderDim`, and `renderDim` renders a dimension
as its numeric `dim_value` exactly when that value is strictly positive
and as `dynamic` exactly when it is zero or negative. -/
theorem claim_C6 (env : Env) (path : String) (model : OnnxModel)
    (hp : env.path_exists path = true)
    (hl : env.load path = Except.ok model)
    (hc : env.check_model model = Except.ok ()) :
    (check_onnx_model env path).inputReport =
      model.inputs.map (fun t => (t.name, t.dims.map renderDim))
    ∧ (check_onnx_model env path).outputReport =
      model.outputs.map (fun t => (t.name, t.dims.map renderDim))
    ∧ ∀ d : Int, (renderDim d = ShapeEntry.num d ↔ 0 < d)
        ∧ (renderDim d = ShapeEntry.dynamic ↔ d ≤ 0) := by
  refine ⟨?_, ?_, ?_⟩
  · simp [check_onnx_model, outerBlock, renderShape, hp, hl, hc]
  · simp [check_onnx_model, outerBlock, renderShape, hp, hl, hc]
  · intro d
    by_cases hd : 0 < d
    · constructor
      · simp [renderDim, hd]
      · simp [renderDim, hd]
    · constructor
      · simp [renderDim, hd]
      · simp [renderDim, hd]
        omega

/-- Witness for C6: instantiated at `envOk` and its model `okModel`. -/
theorem claim_C6_witness :
    (check_onnx_model envOk "m.onnx").inputReport =
      okModel.inputs.map (fun t => (t.name, t.dims.map renderDim))
    ∧ (check_onnx_model envOk "m.onnx").outputReport =
      okModel.outputs.map (fun t => (t.name, t.dims.map renderDim))
    ∧ ∀ d : Int, (renderDim d = ShapeEntry.num d ↔ 0 < d)
        ∧ (renderDim d = ShapeEntry.dynamic ↔ d ≤ 0) :=
  claim_C6 envOk "m.onnx" okModel rfl rfl rfl

/-- C7: under `envDyn` the session is created successfully and its first
input is named `images` with a 4-element shape containing symbolic
dimensions, yet the positive-dimension comparison raises `TypeError`,
the inner handler catches it, and `check_onnx_model` returns `False`
with a runtime-error diagnostic and no printed verdict. -/
theorem claim_C7 :
    envDyn.create_session "m.onnx" = Except.ok dynSession
    ∧ (dynSession.inputs.map TensorInfo.name = ["images"])
    ∧ (dynSession.inputs.map (fun t => t.shape.length) = [4])
    ∧ innerBlock envDyn "m.onnx" = Except.error PyErr.typeError
    ∧ (check_onnx_model envDyn "m.onnx").result = false
    ∧ (check_onnx_model envDyn "m.onnx").errMsg = some PyErr.typeError
    ∧ (check_onnx_model envDyn "m.onnx").compatVerdict = none := by
  refine ⟨rfl, rfl, rfl, ?_, ?_, ?_, ?_⟩ <;> rfl

/-- C8: for every path whose file does not exist, `check_onnx_model`
returns `False` with an empty trace (no loader, checker, or session
constructor call) and no exception. -/
theorem claim_C8 (env : Env) (path : String)
    (hp : env.path_exists path = false) :
    check_onnx_model env path =
      { trace := [], inputReport := [], outputReport := [],
        compatVerdict := none, errMsg := none, result := false } := by
  simp [check_onnx_model, hp]

/-- Witness for C8: a world with no files. -/
theorem claim_C8_witness :
    check_onnx_model envMissing "nofile.onnx" =
      { trace := [], inputReport := [], outputReport := [],
        compatVerdict := none, errMsg := none, result := false } :=
  claim_C8 envMissing "nofile.onnx" rfl

/-- The loop on lines 94-99 computes, from any starting counters, the
count of valid models added to `valid_models` and the number of files
added to `total_models`. -/
lemma foldl_loopStep (env : Env) (files : List String) :
    ∀ a b : Nat,
      files.foldl (loopStep env) (a, b) =
        (a + files.countP
            (fun f => (check_onnx_model env (path_join models_dir f)).result),
         b + files.length) := by
  induction files with
  | nil =>
    intro a b
    simp
  | cons f fs ih =>
    intro a b
    rw [List.foldl_cons]
    show fs.foldl (loopStep env)
        (if (check_onnx_model env (path_join models_dir f)).result
         then a + 1 else a, b + 1) = _
    by_cases hf : (check_onnx_model env (path_join models_dir f)).result
    · rw [if_pos hf, ih]
      simp [List.countP_cons, hf, Prod.mk.injEq]
      omega
    · rw [if_neg hf, ih]
      simp [List.countP_cons, hf, Prod.mk.injEq]
      omega

/-- C5: when the models directory exists, `main` runs the check over
exactly the hardcoded five file names, in order (including the
`olov8s-cls.onnx` typo), so the reported total model count is 5
whatever the rest of the world looks like. -/
theorem claim_C5 (env : Env) (hd : env.path_exists models_dir = true) :
    model_files = ["yolov8s.onnx", "yolov8s-pose.onnx", "yolov8s-seg.onnx",
      "olov8s-cls.onnx", "yolov8s-obb.onnx"]
    ∧ ∃ m, main_run env = some m ∧ m.total_models = 5 := by
  constructor
  · rfl
  · rw [main_run, if_pos hd]
    refine ⟨_, rfl, ?_⟩
    show (runLoop env model_files).2 = 5
    rw [runLoop, foldl_loopStep env model_files 0 0]
    rfl

/-- Witness for C5: the all-successful world. -/
theorem claim_C5_witness :
    model_files = ["yolov8s.onnx", "yolov8s-pose.onnx", "yolov8s-seg.onnx",
      "olov8s-cls.onnx", "yolov8s-obb.onnx"]
    ∧ ∃ m, main_run envOk = some m ∧ m.total_models = 5 :=
  claim_C5 envOk rfl

/-- C9: after each iteration of the validation loop (modelled by running
it on each prefix of the file list), `valid_models` equals the number of
files processed so far for which `check_onnx_model` returned `True`,
`total_models` equals the number of files processed, and
`valid_models ≤ total_models` (both are naturals, so `0 ≤ valid_models`
holds by type); moreover the final warning block is printed if and only
if `valid_models < total_models`. -/
theorem claim_C9 (env : Env) :
    (∀ k, (runLoop env (model_files.take k)).1 =
        (model_files.take k).countP
          (fun f => (check_onnx_model env (path_join models_dir f)).result)
      ∧ (runLoop env (model_files.take k)).2 = (model_files.take k).length
      ∧ (runLoop env (model_files.take k)).1 ≤ (runLoop env (model_files.take k)).2)
    ∧ ∀ m, main_run env = some m →
        (m.warning = true ↔ m.valid_models < m.total_models) := by
  constructor
  · intro k
    rw [runLoop, foldl_loopStep env (model_files.take k) 0 0]
    have hle : (model_files.take k).countP
        (fun f => (check_onnx_model env (path_join models_dir f)).result) ≤
        (model_files.take k).length := List.countP_le_length _
    exact ⟨by simp, by simp, by simpa using hle⟩
  · intro m hm
    rw [main_run] at hm
    split at hm
    · rw [Option.some.injEq] at hm
      subst hm
      simp
    · cases hm

/-- The outcome of `main` in the all-successful world. -/
def mainOk : MainResult :=
  { total_models := 5, valid_models := 5, warning := false }

/-- Witness for C9: the all-successful world at prefix length 3, and its
main outcome (5 of 5 valid, no warning). -/
theorem claim_C9_witness :
    ((runLoop envOk (model_files.take 3)).1 =
        (model_files.take 3).countP
          (fun f => (check_onnx_model envOk (path_join models_dir f)).result)
      ∧ (runLoop envOk (model_files.take 3)).2 = (model_files.take 3).length
      ∧ (runLoop envOk (model_files.take 3)).1 ≤
          (runLoop envOk (model_files.take 3)).2)
    ∧ (mainOk.warning = true ↔ mainOk.valid_models < mainOk.total_models) :=
  ⟨(claim_C9 envOk).1 3, (claim_C9 envOk).2 mainOk rfl⟩

end TestONNXQuick
